import Mathlib

/-!
Shallow embedding of `src/magic.rs` (rust-magic, libmagic bindings).

Modelling conventions:
* Host-language text (`&str`, `~str`) and byte buffers (`&[u8]`) are byte
  sequences, `Bytes := List Nat`.
* A raw native pointer `*Magic` / `*c_char` is a `Nat`; `0` is the null
  pointer, matching `core::ptr::is_null`.
* The native library (libmagic) is an opaque environment `MagicEnv` of
  functions, one per entry point of the `extern` block. A returned C string
  is `Option Bytes`: `none` is the null pointer, `some s` is the
  null-terminated content at the returned pointer (bytes up to and not
  including the terminator are `from_c_str s`).
* `combine_flags` folds `c_int` bitwise OR; every `MagicFlag` value is
  nonnegative and below `2^22`, so any OR of them fits in a `c_int` and
  `Nat` with `|||` models the fold exactly.
* `core::str::as_c_str` (Rust 0.6) hands the callee a pointer to the
  string's bytes followed by the trailing terminator, with no validation of
  the content; it is total and its result is the callee's return value. We
  model the byte sequence crossing the ABI as `s ++ [0]`.
-/

namespace RustMagic

/-- Byte sequences: Rust `&str` / `~str` / `&[u8]` contents, and C string contents. -/
abbrev Bytes := List Nat

/-- A raw native pointer; `0` models the null pointer. -/
abbrev MPtr := Nat

/-- `core::ptr::is_null`. -/
def is_null (p : MPtr) : Bool := p == 0

/-- The `MagicFlag` enum of `src/magic.rs`. -/
inductive MagicFlag
  | MAGIC_NONE
  | MAGIC_DEBUG
  | MAGIC_SYMLINK
  | MAGIC_COMPRESS
  | MAGIC_DEVICES
  | MAGIC_MIME_TYPE
  | MAGIC_CONTINUE
  | MAGIC_CHECK
  | MAGIC_PRESERVE_ATIME
  | MAGIC_RAW
  | MAGIC_ERROR
  | MAGIC_MIME_ENCODING
  | MAGIC_MIME
  | MAGIC_APPLE
  | MAGIC_NO_CHECK_COMPRESS
  | MAGIC_NO_CHECK_TAR
  | MAGIC_NO_CHECK_SOFT
  | MAGIC_NO_CHECK_APPTYPE
  | MAGIC_NO_CHECK_ELF
  | MAGIC_NO_CHECK_TEXT
  | MAGIC_NO_CHECK_CDF
  | MAGIC_NO_CHECK_TOKENS
  | MAGIC_NO_CHECK_ENCODING
deriving DecidableEq

/-- The discriminant value of each `MagicFlag` variant (`*b as c_int`). -/
def MagicFlag.val : MagicFlag → Nat
  | .MAGIC_NONE => 0x000000
  | .MAGIC_DEBUG => 0x000001
  | .MAGIC_SYMLINK => 0x000002
  | .MAGIC_COMPRESS => 0x000004
  | .MAGIC_DEVICES => 0x000008
  | .MAGIC_MIME_TYPE => 0x000010
  | .MAGIC_CONTINUE => 0x000020
  | .MAGIC_CHECK => 0x000040
  | .MAGIC_PRESERVE_ATIME => 0x000080
  | .MAGIC_RAW => 0x000100
  | .MAGIC_ERROR => 0x000200
  | .MAGIC_MIME_ENCODING => 0x000400
  | .MAGIC_MIME => 0x000410
  | .MAGIC_APPLE => 0x000800
  | .MAGIC_NO_CHECK_COMPRESS => 0x001000
  | .MAGIC_NO_CHECK_TAR => 0x002000
  | .MAGIC_NO_CHECK_SOFT => 0x004000
  | .MAGIC_NO_CHECK_APPTYPE => 0x008000
  | .MAGIC_NO_CHECK_ELF => 0x010000
  | .MAGIC_NO_CHECK_TEXT => 0x020000
  | .MAGIC_NO_CHECK_CDF => 0x040000
  | .MAGIC_NO_CHECK_TOKENS => 0x100000
  | .MAGIC_NO_CHECK_ENCODING => 0x200000

/-- `fn combine_flags(flags: &[MagicFlag]) -> c_int`:
`vec::foldl(0, flags, |a, b| a | (*b as c_int))`. -/
def combine_flags (flags : List MagicFlag) : Nat :=
  flags.foldl (fun a b => a ||| b.val) 0

/-- The native libmagic entry points declared in the `extern "C"` block,
as an opaque environment. Return codes are `Int` (`c_int`); a returned
C string pointer is `Option Bytes` (`none` is null, `some s` the
null-terminated content found at the pointer). `magic_close` returns unit
and is tracked by the trace semantics below rather than by a field here. -/
structure MagicEnv where
  magic_open : Nat → MPtr
  magic_close : MPtr → Unit
  magic_error : MPtr → Option Bytes
  magic_errno : MPtr → Int
  magic_descriptor : MPtr → Int → Option Bytes
  magic_file : MPtr → Bytes → Option Bytes
  magic_buffer : MPtr → Bytes → Nat → Option Bytes
  magic_setflags : MPtr → Nat → Int
  magic_check : MPtr → Bytes → Int
  magic_compile : MPtr → Bytes → Int
  magic_list : MPtr → Bytes → Int
  magic_load : MPtr → Bytes → Int

/-- The byte sequence `core::str::as_c_str` makes visible across the ABI:
the string's bytes followed by the trailing null terminator, passed with
no validation (the Rust 0.6 function only asserts its own trailing byte
is 0 and is total: it always applies the callee to the pointer). -/
def as_c_str (s : Bytes) : Bytes := s ++ [0]

/-- `str::raw::from_c_str`: read the bytes at a (non-null) returned C
string pointer up to the first null terminator. -/
def from_c_str (s : Bytes) : Bytes := s.takeWhile (· != 0)

/-- `true` when the byte sequence is representable as a well-formed C
string payload, i.e. has no interior NUL byte. -/
def validCPayload (s : Bytes) : Bool := s.all (· != 0)

/-- `pub struct Cookie { priv cookie: *Magic }`. -/
structure Cookie where
  cookie : MPtr
deriving DecidableEq

/-- `Cookie::file`: marshal `filename`, call `magic_file`, null-check the
returned pointer, convert the content on the non-null branch. -/
def Cookie.file (env : MagicEnv) (self : Cookie) (filename : Bytes) : Option Bytes :=
  match env.magic_file self.cookie (as_c_str filename) with
  | none => none
  | some s => some (from_c_str s)

/-- `Cookie::buffer`: call `magic_buffer` with the raw buffer and its
length, null-check the returned pointer. -/
def Cookie.buffer (env : MagicEnv) (self : Cookie) (buffer : Bytes) : Option Bytes :=
  match env.magic_buffer self.cookie buffer buffer.length with
  | none => none
  | some s => some (from_c_str s)

/-- `Cookie::error`: call `magic_error`, null-check the returned pointer. -/
def Cookie.error (env : MagicEnv) (self : Cookie) : Option Bytes :=
  match env.magic_error self.cookie with
  | none => none
  | some s => some (from_c_str s)

/-- `Cookie::setflags`: call `magic_setflags` with the combined mask; the
native `c_int` return code is discarded and the method returns unit. -/
def Cookie.setflags (env : MagicEnv) (self : Cookie) (flags : List MagicFlag) : Unit :=
  let _ := env.magic_setflags self.cookie (combine_flags flags)
  ()

/-- `Cookie::check`: marshal `filename`, call `magic_check`, compare the
return code with 0. -/
def Cookie.check (env : MagicEnv) (self : Cookie) (filename : Bytes) : Bool :=
  env.magic_check self.cookie (as_c_str filename) == 0

/-- `Cookie::compile`: marshal `filename`, call `magic_compile`, compare
the return code with 0. -/
def Cookie.compile (env : MagicEnv) (self : Cookie) (filename : Bytes) : Bool :=
  env.magic_compile self.cookie (as_c_str filename) == 0

/-- `Cookie::list`: marshal `filename`, call `magic_list`, compare the
return code with 0. -/
def Cookie.list (env : MagicEnv) (self : Cookie) (filename : Bytes) : Bool :=
  env.magic_list self.cookie (as_c_str filename) == 0

/-- `Cookie::load`: marshal `filename`, call `magic_load`, compare the
return code with 0. -/
def Cookie.load (env : MagicEnv) (self : Cookie) (filename : Bytes) : Bool :=
  env.magic_load self.cookie (as_c_str filename) == 0

/-- `static fn open(flags: &[MagicFlag]) -> Option<Cookie>`: call
`magic_open` with the combined mask; a null reference yields `None`, any
other reference is stored in a new `Cookie`. The `Option` result carries
no diagnostic text. -/
def Cookie.open' (env : MagicEnv) (flags : List MagicFlag) : Option Cookie :=
  let cookie := env.magic_open (combine_flags flags)
  if is_null cookie then none else some { cookie := cookie }

/-- A caller-issued operation against a live `Cookie` (one per `&self`
method of `impl Cookie`). -/
inductive Op
  | file (filename : Bytes)
  | buffer (buf : Bytes)
  | error
  | setflags (flags : List MagicFlag)
  | check (filename : Bytes)
  | compile (filename : Bytes)
  | list (filename : Bytes)
  | load (filename : Bytes)
deriving DecidableEq

/-- One native call crossing the FFI boundary, with its arguments. -/
inductive NativeCall
  | openC (mask : Nat)
  | closeC (p : MPtr)
  | errorC (p : MPtr)
  | fileC (p : MPtr) (arg : Bytes)
  | bufferC (p : MPtr) (buf : Bytes) (len : Nat)
  | setflagsC (p : MPtr) (mask : Nat)
  | checkC (p : MPtr) (arg : Bytes)
  | compileC (p : MPtr) (arg : Bytes)
  | listC (p : MPtr) (arg : Bytes)
  | loadC (p : MPtr) (arg : Bytes)
deriving DecidableEq

/-- The native calls an operation performs on a `Cookie`: each `&self`
method of `impl Cookie` reads `self.cookie` and makes exactly one native
call; none of them mutates the stored pointer (the receiver is an
immutable borrow) and none of them calls `magic_close`. -/
def opCalls (self : Cookie) : Op → List NativeCall
  | .file fn => [.fileC self.cookie (as_c_str fn)]
  | .buffer b => [.bufferC self.cookie b b.length]
  | .error => [.errorC self.cookie]
  | .setflags fs => [.setflagsC self.cookie (combine_flags fs)]
  | .check fn => [.checkC self.cookie (as_c_str fn)]
  | .compile fn => [.compileC self.cookie (as_c_str fn)]
  | .list fn => [.listC self.cookie (as_c_str fn)]
  | .load fn => [.loadC self.cookie (as_c_str fn)]

/-- The native-call trace of one owning scope, following Rust's scoped
drop semantics for the source's `impl Drop for Cookie` (whose `finalize`
calls `magic_close(self.cookie)` once):
`Cookie::open` is called; if it returns `None` no `Cookie` exists and
nothing else runs; otherwise the scope issues the first `k` of its
intended operations (`k` models any exit point - normal completion or an
early exit) and, when control leaves the scope by any path, the `Drop`
impl runs and calls `magic_close` on the stored pointer. -/
def scopeTrace (env : MagicEnv) (flags : List MagicFlag) (ops : List Op) (k : Nat) :
    List NativeCall :=
  match Cookie.open' env flags with
  | none => [.openC (combine_flags flags)]
  | some c => .openC (combine_flags flags) ::
      ((ops.take k).flatMap (opCalls c) ++ [.closeC c.cookie])

/-- The handle pointer a native call is issued against (`none` for
`magic_open`, which has no handle argument). -/
def callTarget : NativeCall → Option MPtr
  | .openC _ => none
  | .closeC p => some p
  | .errorC p => some p
  | .fileC p _ => some p
  | .bufferC p _ _ => some p
  | .setflagsC p _ => some p
  | .checkC p _ => some p
  | .compileC p _ => some p
  | .listC p _ => some p
  | .loadC p _ => some p

/-- The method names of `impl Cookie` in `src/magic.rs`, in source order:
this is the public operation surface of the handle type. -/
def cookieSurface : List String :=
  ["file", "buffer", "error", "setflags", "check", "compile", "list", "load", "open"]

/-- The native entry points declared in the `extern "C"` block of
`src/magic.rs`, in source order. -/
def externDecls : List String :=
  ["magic_open", "magic_close", "magic_error", "magic_errno", "magic_descriptor",
   "magic_file", "magic_buffer", "magic_setflags", "magic_check", "magic_compile",
   "magic_list", "magic_load"]

/-! ### Helper lemmas about the flag fold -/

theorem combine_flags_foldl (l : List MagicFlag) (a : Nat) :
    l.foldl (fun a b => a ||| b.val) a = a ||| combine_flags l := by
  induction l generalizing a with
  | nil => simp [combine_flags]
  | cons x l ih =>
    simp only [combine_flags, List.foldl_cons]
    rw [ih, ih (0 ||| x.val)]
    simp [Nat.lor_assoc]

theorem combine_flags_cons (x : MagicFlag) (l : List MagicFlag) :
    combine_flags (x :: l) = x.val ||| combine_flags l := by
  have h := combine_flags_foldl l (0 ||| x.val)
  simp only [combine_flags, List.foldl_cons]
  rw [h]
  simp [combine_flags]

theorem combine_flags_perm {l l' : List MagicFlag} (h : l.Perm l') :
    combine_flags l = combine_flags l' := by
  induction h with
  | nil => rfl
  | cons x _ ih => rw [combine_flags_cons, combine_flags_cons, ih]
  | swap x y l =>
      rw [combine_flags_cons, combine_flags_cons, combine_flags_cons,
        combine_flags_cons, ← Nat.lor_assoc, ← Nat.lor_assoc,
        Nat.lor_comm y.val x.val]
  | trans _ _ ih1 ih2 => rw [ih1, ih2]

theorem combine_flags_mem_lor {x : MagicFlag} {l : List MagicFlag} (h : x ∈ l) :
    x.val ||| combine_flags l = combine_flags l := by
  induction l with
  | nil => cases h
  | cons y l ih =>
    rw [combine_flags_cons]
    rcases List.mem_cons.mp h with rfl | h
    · rw [← Nat.lor_assoc]; simp
    · rw [← Nat.lor_assoc, Nat.lor_comm x.val y.val, Nat.lor_assoc, ih h]

theorem combine_flags_dedup (l : List MagicFlag) :
    combine_flags l.dedup = combine_flags l := by
  induction l with
  | nil => rfl
  | cons x l ih =>
    by_cases h : x ∈ l
    · rw [List.dedup_cons_of_mem h, ih, combine_flags_cons, combine_flags_mem_lor h]
    · rw [List.dedup_cons_of_not_mem h, combine_flags_cons, combine_flags_cons, ih]

theorem combine_flags_none_insert (l1 l2 : List MagicFlag) :
    combine_flags (l1 ++ MagicFlag.MAGIC_NONE :: l2) = combine_flags (l1 ++ l2) := by
  induction l1 with
  | nil => simp [combine_flags_cons, MagicFlag.val]
  | cons x l1 ih => simp only [List.cons_append, combine_flags_cons, ih]

/-- A concrete native environment used to instantiate the theorems:
`magic_open` returns pointer 1, the string-returning calls return a
non-null one-byte content, the administrative calls return 0. -/
def envW : MagicEnv where
  magic_open := fun _ => 1
  magic_close := fun _ => ()
  magic_error := fun _ => some [69]
  magic_errno := fun _ => 2
  magic_descriptor := fun _ _ => none
  magic_file := fun _ _ => some [80]
  magic_buffer := fun _ _ _ => some [66]
  magic_setflags := fun _ _ => 0
  magic_check := fun _ _ => 0
  magic_compile := fun _ _ => 0
  magic_list := fun _ _ => 0
  magic_load := fun _ _ => 0

/-! ### Claim theorems -/

/-- C3: `combine_flags` is a pure total function folding its input with
bitwise OR from the zero mask: it maps the empty sequence to 0, and its
result is invariant under reordering of the sequence and under removal of
duplicate entries. -/
theorem combine_flags_pure_fold :
    combine_flags [] = 0
  ∧ (∀ l l' : List MagicFlag, l.Perm l' → combine_flags l = combine_flags l')
  ∧ (∀ l : List MagicFlag, combine_flags l.dedup = combine_flags l) :=
  ⟨rfl, fun _ _ h => combine_flags_perm h, combine_flags_dedup⟩

theorem combine_flags_pure_fold_witness :
    combine_flags [MagicFlag.MAGIC_DEBUG, MagicFlag.MAGIC_SYMLINK] =
      combine_flags [MagicFlag.MAGIC_SYMLINK, MagicFlag.MAGIC_DEBUG]
  ∧ combine_flags [MagicFlag.MAGIC_DEBUG, MagicFlag.MAGIC_SYMLINK] = 3
  ∧ combine_flags
      [MagicFlag.MAGIC_DEBUG, MagicFlag.MAGIC_DEBUG, MagicFlag.MAGIC_SYMLINK].dedup =
      combine_flags [MagicFlag.MAGIC_DEBUG, MagicFlag.MAGIC_DEBUG, MagicFlag.MAGIC_SYMLINK] :=
  ⟨combine_flags_pure_fold.2.1 _ _ (by decide), by decide,
   combine_flags_pure_fold.2.2 _⟩

/-- C10: `MAGIC_NONE` carries bit pattern 0, so it is an identity of
flag combination: inserting it anywhere leaves `combine_flags` unchanged,
and `combine_flags [MAGIC_NONE] = combine_flags [] = 0`. -/
theorem magic_none_identity :
    MagicFlag.MAGIC_NONE.val = 0
  ∧ (∀ l1 l2 : List MagicFlag,
      combine_flags (l1 ++ MagicFlag.MAGIC_NONE :: l2) = combine_flags (l1 ++ l2))
  ∧ combine_flags [MagicFlag.MAGIC_NONE] = combine_flags []
  ∧ combine_flags [] = 0 :=
  ⟨rfl, combine_flags_none_insert, by decide, rfl⟩

/-- C2: `file`, `buffer` and `error` return `none` exactly when the native
call returns the null pointer, and otherwise `some` of the host string
converted from the returned null-terminated byte sequence; the returned
pointer is never converted without the null check. -/
theorem string_returns_null_checked (env : MagicEnv) (self : Cookie) (fn buf : Bytes) :
    (Cookie.file env self fn = none ↔ env.magic_file self.cookie (as_c_str fn) = none)
  ∧ (∀ s, env.magic_file self.cookie (as_c_str fn) = some s →
      Cookie.file env self fn = some (from_c_str s))
  ∧ (Cookie.buffer env self buf = none ↔
      env.magic_buffer self.cookie buf buf.length = none)
  ∧ (∀ s, env.magic_buffer self.cookie buf buf.length = some s →
      Cookie.buffer env self buf = some (from_c_str s))
  ∧ (Cookie.error env self = none ↔ env.magic_error self.cookie = none)
  ∧ (∀ s, env.magic_error self.cookie = some s →
      Cookie.error env self = some (from_c_str s)) := by
  constructor
  · cases h : env.magic_file self.cookie (as_c_str fn) <;> simp [Cookie.file, h]
  constructor
  · intro s hs; simp [Cookie.file, hs]
  constructor
  · cases h : env.magic_buffer self.cookie buf buf.length <;> simp [Cookie.buffer, h]
  constructor
  · intro s hs; simp [Cookie.buffer, hs]
  constructor
  · cases h : env.magic_error self.cookie <;> simp [Cookie.error, h]
  · intro s hs; simp [Cookie.error, hs]

theorem string_returns_null_checked_witness :
    Cookie.file envW { cookie := 1 } [97] = some [80]
  ∧ Cookie.buffer envW { cookie := 1 } [1, 2] = some [66]
  ∧ Cookie.error envW { cookie := 1 } = some [69] :=
  ⟨(string_returns_null_checked envW { cookie := 1 } [97] [1, 2]).2.1 [80] rfl,
   (string_returns_null_checked envW { cookie := 1 } [97] [1, 2]).2.2.2.1 [66] rfl,
   (string_returns_null_checked envW { cookie := 1 } [97] [1, 2]).2.2.2.2.2 [69] rfl⟩

/-- C4: `open` encodes the options with `combine_flags`, calls the native
open entry point with the mask, yields `none` exactly when the native
reference is null, and otherwise an owned `Cookie` storing that
reference; the `Option` result carries no diagnostic text. -/
theorem open_null_checked (env : MagicEnv) (flags : List MagicFlag) :
    (Cookie.open' env flags = none ↔
      is_null (env.magic_open (combine_flags flags)) = true)
  ∧ (is_null (env.magic_open (combine_flags flags)) = false →
      Cookie.open' env flags = some { cookie := env.magic_open (combine_flags flags) }) := by
  constructor
  · cases h : is_null (env.magic_open (combine_flags flags)) <;> simp [Cookie.open', h]
  · intro h; simp [Cookie.open', h]

theorem open_null_checked_witness :
    is_null (envW.magic_open (combine_flags [MagicFlag.MAGIC_NONE])) = false
  ∧ Cookie.open' envW [MagicFlag.MAGIC_NONE] = some { cookie := 1 } :=
  ⟨rfl, (open_null_checked envW [MagicFlag.MAGIC_NONE]).2 rfl⟩

/-- C5: each of `check`, `compile`, `list`, `load` marshals the path,
invokes the corresponding native entry point, and returns `true` exactly
when the native return code is 0 (hence `false` for every nonzero code). -/
theorem admin_ops_zero_code (env : MagicEnv) (self : Cookie) (fn : Bytes) :
    (Cookie.check env self fn = true ↔ env.magic_check self.cookie (as_c_str fn) = 0)
  ∧ (Cookie.compile env self fn = true ↔ env.magic_compile self.cookie (as_c_str fn) = 0)
  ∧ (Cookie.list env self fn = true ↔ env.magic_list self.cookie (as_c_str fn) = 0)
  ∧ (Cookie.load env self fn = true ↔ env.magic_load self.cookie (as_c_str fn) = 0) := by
  refine ⟨?_, ?_, ?_, ?_⟩ <;>
    simp [Cookie.check, Cookie.compile, Cookie.list, Cookie.load]

theorem admin_ops_zero_code_witness :
    Cookie.check envW { cookie := 1 } [97] = true
  ∧ Cookie.load envW { cookie := 1 } [97] = true :=
  ⟨(admin_ops_zero_code envW { cookie := 1 } [97]).1.mpr rfl,
   (admin_ops_zero_code envW { cookie := 1 } [97]).2.2.2.mpr rfl⟩

/-- C6: `setflags` encodes the options with `combine_flags` and issues the
native set-flags call with that mask, but surfaces no observable return
value: the result is unit for every environment, so two environments
whose `magic_setflags` return codes differ are indistinguishable to the
caller of `setflags`. -/
theorem setflags_discards_return (env env' : MagicEnv) (self : Cookie)
    (flags : List MagicFlag) :
    Cookie.setflags env self flags = ()
  ∧ Cookie.setflags env self flags = Cookie.setflags env' self flags
  ∧ opCalls self (Op.setflags flags) =
      [NativeCall.setflagsC self.cookie (combine_flags flags)] :=
  ⟨rfl, rfl, rfl⟩

/-- C9 counterexample: `[97, 0, 98]` has an interior NUL, so it is not
representable as a well-formed C string payload, yet `check` and `file`
pass the marshaled bytes across the ABI unchanged and return the result
derived from the native return value instead of signaling failure. -/
theorem interior_nul_not_fail_closed :
    validCPayload [97, 0, 98] = false
  ∧ as_c_str [97, 0, 98] = [97, 0, 98, 0]
  ∧ Cookie.check envW { cookie := 1 } [97, 0, 98] = true
  ∧ Cookie.file envW { cookie := 1 } [97, 0, 98] = some [80] :=
  ⟨rfl, rfl, rfl, rfl⟩

/-- C9 amended: on a string input whose encoding is invalid for the
native ABI (interior NUL), the marshaling operations do not fail closed:
the null-terminated marshaled bytes are passed to the native entry point
and the operation's result reflects only the native return value. -/
theorem marshal_never_fails_closed (env : MagicEnv) (self : Cookie) (fn : Bytes)
    (h : validCPayload fn = false) :
    Cookie.check env self fn = (env.magic_check self.cookie (as_c_str fn) == 0)
  ∧ Cookie.file env self fn = (env.magic_file self.cookie (as_c_str fn)).map from_c_str := by
  refine ⟨rfl, ?_⟩
  cases hf : env.magic_file self.cookie (as_c_str fn) <;> simp [Cookie.file, hf]

theorem marshal_never_fails_closed_witness :
    validCPayload [97, 0, 98] = false
  ∧ Cookie.check envW { cookie := 1 } [97, 0, 98] =
      (envW.magic_check 1 (as_c_str [97, 0, 98]) == 0) :=
  ⟨by decide, (marshal_never_fails_closed envW { cookie := 1 } [97, 0, 98] (by decide)).1⟩

/-- A successful `Cookie::open` stores exactly the reference returned by
`magic_open`, and that reference is non-null. -/
theorem open_some_elim {env : MagicEnv} {flags : List MagicFlag} {c : Cookie}
    (h : Cookie.open' env flags = some c) :
    c.cookie = env.magic_open (combine_flags flags) ∧ c.cookie ≠ 0 := by
  simp only [Cookie.open'] at h
  split at h
  · simp at h
  · next hp =>
      rcases Option.some.inj h with rfl
      refine ⟨rfl, ?_⟩
      simpa [is_null] using hp

/-- Every native call an operation makes targets the cookie's stored
pointer. -/
theorem opCalls_target (c : Cookie) (op : Op) (nc : NativeCall)
    (h : nc ∈ opCalls c op) : callTarget nc = some c.cookie := by
  cases op <;> simp only [opCalls, List.mem_singleton] at h <;> subst h <;> rfl

/-- No operation issues a `magic_close` call. -/
theorem opCalls_countP_close (c : Cookie) (op : Op) (p : MPtr) :
    ((opCalls c op).countP fun nc => decide (nc = NativeCall.closeC p)) = 0 := by
  cases op <;> simp [opCalls]

/-- C1: for every `Cookie` constructed by a successful `open`, every list
of operations the scope issues, and every exit point `k` of the scope,
the scope's native-call trace contains `magic_close` on the stored
pointer exactly once — the release runs on every exit path and is never
invoked twice for the same reference. -/
theorem close_called_exactly_once (env : MagicEnv) (flags : List MagicFlag)
    (ops : List Op) (k : Nat) (c : Cookie) (h : Cookie.open' env flags = some c) :
    ((scopeTrace env flags ops k).countP
      fun nc => decide (nc = NativeCall.closeC c.cookie)) = 1 := by
  unfold scopeTrace
  rw [h]
  rw [List.countP_cons, List.countP_append]
  have h1 : ∀ l : List Op,
      ((l.flatMap (opCalls c)).countP
        fun nc => decide (nc = NativeCall.closeC c.cookie)) = 0 := by
    intro l
    induction l with
    | nil => rfl
    | cons op l ih =>
      rw [List.flatMap_cons, List.countP_append, ih, opCalls_countP_close]
  rw [h1]
  simp

theorem close_called_exactly_once_witness :
    Cookie.open' envW [MagicFlag.MAGIC_NONE] = some { cookie := 1 }
  ∧ ((scopeTrace envW [MagicFlag.MAGIC_NONE] [Op.error, Op.check [97]] 2).countP
      fun nc => decide (nc = NativeCall.closeC 1)) = 1 :=
  ⟨rfl, close_called_exactly_once envW [MagicFlag.MAGIC_NONE]
    [Op.error, Op.check [97]] 2 { cookie := 1 } rfl⟩

/-- C8: a `Cookie` is only constructed from a non-null native reference,
and every native call of the scope's trace (other than `magic_open`,
which takes no handle) targets that same stored non-null pointer: no
operation modifies the stored reference, so the non-null invariant holds
for the cookie's entire observable lifetime. -/
theorem cookie_nonnull_invariant (env : MagicEnv) (flags : List MagicFlag)
    (ops : List Op) (k : Nat) (c : Cookie) (h : Cookie.open' env flags = some c) :
    c.cookie ≠ 0
  ∧ ∀ nc ∈ scopeTrace env flags ops k,
      callTarget nc = none ∨ callTarget nc = some c.cookie := by
  refine ⟨(open_some_elim h).2, ?_⟩
  intro nc hnc
  unfold scopeTrace at hnc
  rw [h] at hnc
  rcases List.mem_cons.mp hnc with rfl | hnc
  · exact Or.inl rfl
  rcases List.mem_append.mp hnc with hnc | hnc
  · rcases List.mem_flatMap.mp hnc with ⟨op, _, hin⟩
    exact Or.inr (opCalls_target c op nc hin)
  · rcases List.mem_singleton.mp hnc with rfl
    exact Or.inr rfl

theorem cookie_nonnull_invariant_witness :
    Cookie.open' envW [MagicFlag.MAGIC_NONE] = some { cookie := 1 }
  ∧ (({ cookie := 1 } : Cookie).cookie ≠ 0
     ∧ ∀ nc ∈ scopeTrace envW [MagicFlag.MAGIC_NONE] [Op.error] 1,
         callTarget nc = none ∨ callTarget nc = some ({ cookie := 1 } : Cookie).cookie) :=
  ⟨rfl, cookie_nonnull_invariant envW [MagicFlag.MAGIC_NONE] [Op.error] 1
    { cookie := 1 } rfl⟩

/-- C7 counterexample: no errno query appears among the methods of
`impl Cookie` — the handle's public surface exposes no error-code query. -/
theorem errno_not_on_surface :
    "last_errno" ∉ cookieSurface ∧ "errno" ∉ cookieSurface := by decide

/-- C7 amended: the native errno entry point `magic_errno` is declared in
the extern block, but the handle's public surface exposes only the
error-text query `error`; no errno query is exposed. -/
theorem errno_declared_not_exposed :
    "magic_errno" ∈ externDecls
  ∧ "error" ∈ cookieSurface
  ∧ "last_errno" ∉ cookieSurface
  ∧ "errno" ∉ cookieSurface := by decide

end RustMagic
